import Mathlib

/-!
Verification of the connection actor in `src/Repl.cpp` (Tello UDP command
channel): the `MessageQueue` FIFO, the `Connection` send/receive machinery,
and the rc-command construction in `main`.

The embedding follows the source. Payloads are `String`s (the C++ code wraps
them in `shared_ptr<string>`; the wrapper only manages lifetime and is
irrelevant to the values). The asynchronous socket is modelled by an explicit
event-step semantics: issuing `async_send_to` appends the payload and its
destination endpoint to `wire` and records the operation in `pending`
(outstanding operations, oldest first); completion handlers are run by
`step` on completion events. This matches the single-threaded
`io_context::poll` execution of `main`.
-/

/-- Result of `MessageQueue::pop`. The C++ code calls `queue.front()` with no
emptiness check; on an empty `std::queue` that is undefined behavior, which
the embedding makes explicit with the `undefinedBehavior` constructor (the
code has no error return for this case). -/
inductive PopResult where
  | ok (message : String) (rest : List String)
  | undefinedBehavior
deriving DecidableEq

/-- `MessageQueue::push`: records whether the queue was empty, pushes the
message at the back, and returns the was-empty flag together with the new
queue contents. Always succeeds. -/
def MessageQueue.push (q : List String) (message : String) : Bool × List String :=
  (q.isEmpty, q ++ [message])

/-- `MessageQueue::pop`: takes `queue.front()` and pops it. There is no
emptiness check in the source, so the empty case is undefined behavior. -/
def MessageQueue.pop : List String → PopResult
  | [] => PopResult.undefinedBehavior
  | message :: rest => PopResult.ok message rest

/-- `MessageQueue::empty`: emptiness snapshot. -/
def MessageQueue.empty (q : List String) : Bool :=
  q.isEmpty

/-- A UDP endpoint (address, port), modelling `boost::asio::ip::udp::endpoint`. -/
structure Endpoint where
  address : String
  port : Nat
deriving DecidableEq

/-- State of a `Connection` object together with its observable interactions:
`wire` is the sequence of (payload, destination) pairs handed to
`async_send_to` in issue order, `pending` the outstanding send operations
(oldest first), `observed` the messages printed by the receive handler,
`listening` whether a receive operation is currently armed, and the error
counters record the handlers' error reports. -/
structure Connection where
  receive_buffer : List Char
  queue : List String
  endpoint : Endpoint
  pending : List String
  wire : List (String × Endpoint)
  observed : List String
  listening : Bool
  recvErrors : Nat
  sendErrors : Nat
deriving DecidableEq

/-- The `Connection` constructor: stores the endpoint and resizes the receive
buffer to 1518 (filled with NUL characters by `std::string::resize`). No
receive is armed yet and nothing is queued, pending or sent. -/
def Connection.make (endpoint : Endpoint) : Connection :=
  { receive_buffer := List.replicate 1518 (Char.ofNat 0)
    queue := []
    endpoint := endpoint
    pending := []
    wire := []
    observed := []
    listening := false
    recvErrors := 0
    sendErrors := 0 }

/-- `Connection::async_receive`: arms a receive operation. The completion
handler is run by `step` on a receive-completion event. -/
def Connection.async_receive (c : Connection) : Connection :=
  { c with listening := true }

/-- `Connection::async_send`: pops the front of the send queue and issues
`async_send_to(buffer(*message), this->endpoint, ...)`: the payload and the
current destination endpoint are appended to `wire` and the operation becomes
outstanding. The pop on an empty queue is undefined behavior in the source
(`front()` on an empty queue); in that case the model leaves the state
unchanged — no call site reaches it, because `async_send` is only invoked
after a push or under a non-emptiness check. -/
def Connection.async_send (c : Connection) : Connection :=
  match MessageQueue.pop c.queue with
  | PopResult.undefinedBehavior => c
  | PopResult.ok message rest =>
      { c with
        queue := rest
        pending := c.pending ++ [message]
        wire := c.wire ++ [(message, c.endpoint)] }

/-- `Connection::send`: pushes the message; if the push reports that the
queue was empty, starts a drain chain with `async_send`. -/
def Connection.send (c : Connection) (message : String) : Connection :=
  let r := MessageQueue.push c.queue message
  let c' := { c with queue := r.2 }
  if r.1 then c'.async_send else c'

/-- Events delivered to the actor: a driver call to `Connection::send`, the
completion of the oldest outstanding send operation (with success flag), and
the completion of the armed receive operation (success flag, datagram
contents, datagram source endpoint). -/
inductive Event where
  | send (message : String)
  | sendComplete (ok : Bool)
  | recvComplete (ok : Bool) (data : String) (source : Endpoint)
deriving DecidableEq

/-- One step of the actor. `send` runs `Connection::send`. `sendComplete`
runs the `async_send_to` completion handler: on success it re-enters
`async_send` when the queue is non-empty, on failure it reports the error
and stops the chain (the popped payload is not re-queued). `recvComplete`
runs the `async_receive_from` completion handler, which fires only while a
receive is armed: on success the operating system has written the datagram
into the front of the receive buffer and, crucially, has stored the
datagram's SOURCE endpoint into `this->endpoint` (the second argument of
`async_receive_from` is an out-parameter); the handler prints
`receive_buffer.substr(0, bytes_received)` and re-arms with
`async_receive`. On failure the handler reports the error and does not
re-arm. -/
def step (s : Connection) : Event → Connection
  | Event.send message => s.send message
  | Event.sendComplete ok =>
      match s.pending with
      | [] => s
      | _ :: rest =>
          let s' := { s with pending := rest }
          if ok then
            if MessageQueue.empty s'.queue then s' else s'.async_send
          else
            { s' with sendErrors := s'.sendErrors + 1 }
  | Event.recvComplete ok data source =>
      if s.listening then
        if ok then
          let n := min data.length 1518
          let buf := data.toList.take n ++ s.receive_buffer.drop n
          let message := String.mk (buf.take n)
          Connection.async_receive
            { s with
              receive_buffer := buf
              endpoint := source
              observed := s.observed ++ [message] }
        else
          { s with listening := false, recvErrors := s.recvErrors + 1 }
      else s

/-- Run a sequence of events from a state. -/
def run (s : Connection) : List Event → Connection
  | [] => s
  | e :: es => run (step s e) es

/-- The endpoint `main` constructs the connection with: 192.168.10.1:8889. -/
def telloEndpoint : Endpoint :=
  { address := "192.168.10.1", port := 8889 }

/-- The connection as set up by `main`: constructed with the Tello endpoint,
then `async_receive()` is called once. -/
def connInit : Connection :=
  (Connection.make telloEndpoint).async_receive

/-- `std::clamp(v, lo, hi)`: `lo` if `v < lo`, `hi` if `hi < v`, else `v`. -/
def clamp (v lo hi : Int) : Int :=
  if v < lo then lo else if hi < v then hi else v

/-- The rc command built each iteration of `main`'s loop, starting from the
four pre-scaled integer axis values (the result of
`static_cast<int>(state.axes[i] * 100)`): each is clamped to [-100, 100] and
formatted as `rc a b c d`. -/
def rc_command (a b c d : Int) : String :=
  "rc " ++ toString (clamp a (-100) 100) ++ " " ++ toString (clamp b (-100) 100)
    ++ " " ++ toString (clamp c (-100) 100) ++ " " ++ toString (clamp d (-100) 100)

/-- Guard for the amended single-flight claim: a `send` call is made only
when the queue is non-empty or no send operation is outstanding. Completion
events are always allowed. -/
def guardOK (s : Connection) : Event → Bool
  | Event.send _ => !s.queue.isEmpty || s.pending.isEmpty
  | Event.sendComplete _ => true
  | Event.recvComplete _ _ _ => true

/-- A trace is guarded when every event in it satisfies `guardOK` at the
state it is delivered in. -/
def guardedB (s : Connection) : List Event → Bool
  | [] => true
  | e :: es => guardOK s e && guardedB (step s e) es

/-! ### Queue theorems -/

/-- C8: `MessageQueue::push` appends the payload at the back, always
succeeds, and returns `true` exactly when the queue was empty immediately
before the call (the empty-to-non-empty transition). -/
theorem C8_push_spec (q : List String) (m : String) :
    (MessageQueue.push q m).2 = q ++ [m] ∧
    ((MessageQueue.push q m).1 = true ↔ q = []) := by
  refine ⟨rfl, ?_⟩
  simp [MessageQueue.push]

/-- C4 counterexample: `MessageQueue::pop` on the empty queue does not
return a detectable EmptyQueue error: the source performs `queue.front()`
with no emptiness check, which is undefined behavior on an empty
`std::queue`, modelled by the `undefinedBehavior` result. -/
theorem C4_counterexample :
    MessageQueue.pop [] = PopResult.undefinedBehavior := rfl

/-- C4 amended: calling `MessageQueue::pop` on an empty queue is an
unchecked `front()` access — undefined behavior, not an explicit EmptyQueue
error; on every non-empty queue `pop` returns the front payload and the
remaining queue. The code relies on its callers to guarantee non-emptiness. -/
theorem C4_amended_pop_unchecked :
    (∀ q, MessageQueue.pop q = PopResult.undefinedBehavior ↔ q = []) ∧
    (∀ m rest, MessageQueue.pop (m :: rest) = PopResult.ok m rest) := by
  constructor
  · intro q
    cases q <;> simp [MessageQueue.pop]
  · intro m rest
    rfl

/-- C10: frame property of the queue operations: `push` adds exactly one
element at the back, leaving every previously present element and their
relative order unchanged and increasing the size by one; `pop` on a
non-empty queue removes and returns exactly the front element, leaving the
remaining elements in order (size decreases by one). -/
theorem C10_queue_frame (q : List String) (m : String) (m0 : String) (rest : List String) :
    (MessageQueue.push q m).2 = q ++ [m] ∧
    (MessageQueue.push q m).2.length = q.length + 1 ∧
    MessageQueue.pop (m0 :: rest) = PopResult.ok m0 rest ∧
    (m0 :: rest).length = rest.length + 1 := by
  simp [MessageQueue.push, MessageQueue.pop]

/-! ### The rc command -/

/-- C9: the rc command construction clamps each pre-scaled axis value to
[-100, 100] (150 maps to 100, -150 to -100, 42 to 42) and fields
(10, -5, 0, 100) produce exactly the string "rc 10 -5 0 100". -/
theorem C9_rc_command :
    clamp 150 (-100) 100 = 100 ∧
    clamp (-150) (-100) 100 = -100 ∧
    clamp 42 (-100) 100 = 42 ∧
    rc_command 10 (-5) 0 100 = "rc 10 -5 0 100" := by
  refine ⟨by decide, by decide, by decide, ?_⟩
  rfl

/-! ### Frame lemmas for the step semantics -/

/-- `async_send` touches only the queue, the pending list and the wire. -/
theorem async_send_frame (c : Connection) :
    (c.async_send).listening = c.listening ∧
    (c.async_send).observed = c.observed ∧
    (c.async_send).endpoint = c.endpoint ∧
    (c.async_send).recvErrors = c.recvErrors ∧
    (c.async_send).sendErrors = c.sendErrors ∧
    (c.async_send).receive_buffer = c.receive_buffer := by
  unfold Connection.async_send
  split <;> simp

/-- `Connection::send` touches only the queue, the pending list and the wire. -/
theorem send_frame (c : Connection) (m : String) :
    (c.send m).listening = c.listening ∧
    (c.send m).observed = c.observed ∧
    (c.send m).endpoint = c.endpoint := by
  unfold Connection.send
  dsimp only
  split
  · exact ⟨((async_send_frame _).1), ((async_send_frame _).2.1), ((async_send_frame _).2.2.1)⟩
  · simp

/-- A send completion touches only the pending list, the queue, the wire and
the send-error count. -/
theorem sendComplete_frame (s : Connection) (ok : Bool) :
    (step s (Event.sendComplete ok)).listening = s.listening ∧
    (step s (Event.sendComplete ok)).observed = s.observed ∧
    (step s (Event.sendComplete ok)).endpoint = s.endpoint := by
  cases hp : s.pending with
  | nil => simp [step, hp]
  | cons p rest =>
      cases ok with
      | false => simp [step, hp]
      | true =>
          cases hq : s.queue with
          | nil => simp [step, hp, hq, MessageQueue.empty]
          | cons a l =>
              simp [step, hp, hq, MessageQueue.empty, Connection.async_send, MessageQueue.pop]

/-- Send events and send completions leave the receive side (listening flag,
observed messages) and the endpoint alone; a receive completion on a stopped
receive loop is impossible and the state is unchanged. -/
theorem step_stopped (s : Connection) (e : Event) (h : s.listening = false) :
    (step s e).listening = false ∧ (step s e).observed = s.observed := by
  cases e with
  | send m => exact ⟨(send_frame s m).1.trans h, (send_frame s m).2.1⟩
  | sendComplete ok =>
      exact ⟨(sendComplete_frame s ok).1.trans h, (sendComplete_frame s ok).2.1⟩
  | recvComplete ok data source => simp [step, h]

/-- Once the receive loop has stopped, no later event restarts it or delivers
another message to the observer. -/
theorem run_stopped (es : List Event) :
    ∀ s : Connection, s.listening = false →
      (run s es).listening = false ∧ (run s es).observed = s.observed := by
  induction es with
  | nil => intro s h; exact ⟨h, rfl⟩
  | cons e es ih =>
      intro s h
      obtain ⟨h1, h2⟩ := step_stopped s e h
      obtain ⟨h3, h4⟩ := ih (step s e) h1
      exact ⟨h3, h4.trans h2⟩

/-- Sending on an empty queue issues the payload immediately: the push
reports was-empty, `async_send` pops the single payload and issues it, and
the queue is empty again afterwards. Over a whole block of `send` calls with
no intervening completion the issued payloads therefore follow the call
order and the queue stays empty. -/
theorem run_sends (ms : List String) :
    ∀ s : Connection, s.queue = [] →
      (run s (ms.map Event.send)).wire = s.wire ++ ms.map (fun m => (m, s.endpoint)) ∧
      (run s (ms.map Event.send)).queue = [] ∧
      (run s (ms.map Event.send)).endpoint = s.endpoint := by
  induction ms with
  | nil => intro s h; simp [run, h]
  | cons m ms ih =>
      intro s h
      have hw : (step s (Event.send m)).wire = s.wire ++ [(m, s.endpoint)] := by
        simp [step, Connection.send, MessageQueue.push, h, Connection.async_send, MessageQueue.pop]
      have hq : (step s (Event.send m)).queue = [] := by
        simp [step, Connection.send, MessageQueue.push, h, Connection.async_send, MessageQueue.pop]
      have hep : (step s (Event.send m)).endpoint = s.endpoint := (send_frame s m).2.2
      obtain ⟨w, q, ep⟩ := ih (step s (Event.send m)) hq
      simp only [List.map_cons, run]
      refine ⟨?_, q, ep.trans hep⟩
      rw [w, hw, hep]
      simp [List.append_assoc]

/-- Sending on a non-empty queue only appends: the push reports
non-emptiness, so no `async_send` is started — nothing reaches the wire and
the pending operations are untouched, over any block of `send` calls. -/
theorem run_sends_nonempty (ms : List String) :
    ∀ s : Connection, s.queue ≠ [] →
      (run s (ms.map Event.send)).wire = s.wire ∧
      (run s (ms.map Event.send)).queue = s.queue ++ ms ∧
      (run s (ms.map Event.send)).pending = s.pending := by
  induction ms with
  | nil => intro s _; simp [run]
  | cons m ms ih =>
      intro s h
      have hne : s.queue.isEmpty = false := by
        rcases hqe : s.queue with _ | ⟨a, l⟩
        · exact absurd hqe h
        · simp
      have hw : (step s (Event.send m)).wire = s.wire := by
        simp [step, Connection.send, MessageQueue.push, hne]
      have hq : (step s (Event.send m)).queue = s.queue ++ [m] := by
        simp [step, Connection.send, MessageQueue.push, hne]
      have hp : (step s (Event.send m)).pending = s.pending := by
        simp [step, Connection.send, MessageQueue.push, hne]
      obtain ⟨w, q, p⟩ := ih (step s (Event.send m)) (by rw [hq]; simp)
      simp only [List.map_cons, run]
      refine ⟨w.trans hw, ?_, p.trans hp⟩
      rw [q, hq]
      simp [List.append_assoc]

/-- One guarded step keeps at most one send operation outstanding. -/
theorem step_pending_le_one (s : Connection) (e : Event)
    (hg : guardOK s e = true) (h : s.pending.length ≤ 1) :
    (step s e).pending.length ≤ 1 := by
  cases e with
  | send m =>
      cases hq : s.queue with
      | cons a l =>
          have hne : s.queue.isEmpty = false := by simp [hq]
          have hp : (step s (Event.send m)).pending = s.pending := by
            simp [step, Connection.send, MessageQueue.push, hne]
          rw [hp]; exact h
      | nil =>
          have hp : s.pending = [] := by
            simp only [guardOK, hq, List.isEmpty_nil, Bool.not_true, Bool.false_or] at hg
            exact List.isEmpty_iff.mp hg
          simp [step, Connection.send, MessageQueue.push, hq, Connection.async_send,
            MessageQueue.pop, hp]
  | sendComplete ok =>
      cases hp : s.pending with
      | nil => simp [step, hp]
      | cons p rest =>
          have hr : rest.length = 0 := by
            rw [hp] at h
            simp only [List.length_cons] at h
            omega
          cases ok with
          | false => simp [step, hp, hr]
          | true =>
              cases hq : s.queue with
              | nil => simp [step, hp, hq, MessageQueue.empty, hr]
              | cons a l =>
                  simp [step, hp, hq, MessageQueue.empty, Connection.async_send,
                    MessageQueue.pop, hr]
  | recvComplete ok data source =>
      cases hl : s.listening with
      | false => simpa [step, hl] using h
      | true =>
          cases ok with
          | true => simpa [step, hl, Connection.async_receive] using h
          | false => simpa [step, hl] using h

/-- Along any guarded trace at most one send operation is ever outstanding. -/
theorem run_pending_le_one (es : List Event) :
    ∀ s : Connection, s.pending.length ≤ 1 → guardedB s es = true →
      (run s es).pending.length ≤ 1 := by
  induction es with
  | nil => intro s h _; exact h
  | cons e es ih =>
      intro s h hg
      simp only [guardedB, Bool.and_eq_true] at hg
      exact ih (step s e) (step_pending_le_one s e hg.1 h) hg.2

/-! ### Send-path theorems -/

/-- C1: payloads passed to `Connection::send` before any send completion is
observed are issued on the socket in exactly the order of the calls: each
drain step pops the front of the FIFO `MessageQueue` and issues its send
before the next pop occurs, so the wire sees P1..Pn in order (and the queue
holds nothing afterwards). -/
theorem C1_order_preservation (ms : List String) :
    (run connInit (ms.map Event.send)).wire.map Prod.fst = ms ∧
    (run connInit (ms.map Event.send)).queue = [] := by
  obtain ⟨w, q, _⟩ := run_sends ms connInit rfl
  refine ⟨?_, q⟩
  have hw0 : connInit.wire = [] := rfl
  rw [w, hw0]
  simp only [List.nil_append, List.map_map]
  rw [show (Prod.fst ∘ fun m : String => (m, connInit.endpoint)) = id from rfl, List.map_id]

/-- C2 counterexample: a state with TWO outstanding send operations is
reachable: two `send` calls with no completion observed in between (exactly
what `main`'s driver loop does on consecutive iterations) leave two
`async_send_to` operations pending, because the queue empties at pop (issue)
time, so the second push also reports was-empty and starts a second chain. -/
theorem C2_counterexample :
    1 < (run connInit [Event.send "command", Event.send "takeoff"]).pending.length := by
  decide

/-- C2 amended: at most one send operation is outstanding only on guarded
traces — those in which every `send` call happens while the queue is
non-empty or no send operation is outstanding. A `send` arriving between the
pop of a chain's last payload and that payload's completion starts a second
concurrent chain, so the unrestricted single-flight claim fails
(`C2_counterexample`). -/
theorem C2_single_flight_guarded (es : List Event)
    (h : guardedB connInit es = true) :
    (run connInit es).pending.length ≤ 1 :=
  run_pending_le_one es connInit (by decide) h

/-- Witness for `C2_single_flight_guarded` on a concrete guarded trace. -/
theorem C2_single_flight_guarded_witness :
    guardedB connInit [Event.send "command", Event.sendComplete true, Event.send "takeoff"]
      = true ∧
    (run connInit [Event.send "command", Event.sendComplete true, Event.send "takeoff"]).pending.length
      ≤ 1 :=
  ⟨by decide, C2_single_flight_guarded _ (by decide)⟩

/-- C3 counterexample: the remote address is NOT immutable. `async_receive`
passes `this->endpoint` as the sender-endpoint out-parameter of
`async_receive_from`, so a successful receive overwrites it with the source
address of the datagram; the next `async_send_to` then targets that source
instead of the endpoint the `Connection` was constructed with. -/
theorem C3_counterexample :
    connInit.endpoint = telloEndpoint ∧
    (run connInit
        [Event.recvComplete true "conn ok" (Endpoint.mk "10.0.0.5" 4000), Event.send "land"]).wire
      = [("land", Endpoint.mk "10.0.0.5" 4000)] ∧
    Endpoint.mk "10.0.0.5" 4000 ≠ telloEndpoint := by
  refine ⟨rfl, ?_, by decide⟩
  decide

/-- C3 amended: each successful receive completion overwrites the endpoint
field with the source address of the received datagram (it is the
out-parameter of `async_receive_from`); `send` calls, send completions and
failed receive completions leave it unchanged; and an issued send targets
the endpoint field's current value. -/
theorem C3_endpoint_behavior (s : Connection) (data m : String) (src : Endpoint) (ok : Bool)
    (hl : s.listening = true) (hq : s.queue = []) :
    (step s (Event.recvComplete true data src)).endpoint = src ∧
    (step s (Event.send m)).endpoint = s.endpoint ∧
    (step s (Event.sendComplete ok)).endpoint = s.endpoint ∧
    (step s (Event.recvComplete false data src)).endpoint = s.endpoint ∧
    (step s (Event.send m)).wire = s.wire ++ [(m, s.endpoint)] := by
  refine ⟨?_, (send_frame s m).2.2, (sendComplete_frame s ok).2.2, ?_, ?_⟩
  · simp [step, hl, Connection.async_receive]
  · simp [step, hl]
  · simp [step, Connection.send, MessageQueue.push, hq, Connection.async_send, MessageQueue.pop]

/-- Witness for `C3_endpoint_behavior` at the initial connection. -/
theorem C3_endpoint_behavior_witness :
    connInit.listening = true ∧ connInit.queue = [] ∧
    ((step connInit (Event.recvComplete true "conn ok" (Endpoint.mk "10.0.0.5" 4000))).endpoint
        = Endpoint.mk "10.0.0.5" 4000 ∧
      (step connInit (Event.send "land")).endpoint = connInit.endpoint ∧
      (step connInit (Event.sendComplete true)).endpoint = connInit.endpoint ∧
      (step connInit (Event.recvComplete false "conn ok" (Endpoint.mk "10.0.0.5" 4000))).endpoint
        = connInit.endpoint ∧
      (step connInit (Event.send "land")).wire = connInit.wire ++ [("land", connInit.endpoint)]) :=
  ⟨by decide, by decide,
    C3_endpoint_behavior connInit "conn ok" "land" (Endpoint.mk "10.0.0.5" 4000) true
      (by decide) (by decide)⟩

/-- C6: when a send completion reports failure the drain chain ends: the
error is reported (the send-error count increases), the failed payload is
not re-enqueued (the queue is unchanged), and no further `async_send` is
issued by that chain (the wire is unchanged and only the completed operation
leaves the pending list). -/
theorem C6_failure_ends_chain (s : Connection) (m : String) (rest : List String)
    (h : s.pending = m :: rest) :
    (step s (Event.sendComplete false)).pending = rest ∧
    (step s (Event.sendComplete false)).queue = s.queue ∧
    (step s (Event.sendComplete false)).wire = s.wire ∧
    (step s (Event.sendComplete false)).sendErrors = s.sendErrors + 1 ∧
    (step s (Event.sendComplete false)).observed = s.observed := by
  simp [step, h]

/-- Witness for `C6_failure_ends_chain` after one issued send. -/
theorem C6_failure_ends_chain_witness :
    (run connInit [Event.send "command"]).pending = "command" :: [] ∧
    ((step (run connInit [Event.send "command"]) (Event.sendComplete false)).pending = [] ∧
      (step (run connInit [Event.send "command"]) (Event.sendComplete false)).queue
        = (run connInit [Event.send "command"]).queue ∧
      (step (run connInit [Event.send "command"]) (Event.sendComplete false)).wire
        = (run connInit [Event.send "command"]).wire ∧
      (step (run connInit [Event.send "command"]) (Event.sendComplete false)).sendErrors
        = (run connInit [Event.send "command"]).sendErrors + 1 ∧
      (step (run connInit [Event.send "command"]) (Event.sendComplete false)).observed
        = (run connInit [Event.send "command"]).observed) :=
  ⟨by decide, C6_failure_ends_chain (run connInit [Event.send "command"]) "command" [] (by decide)⟩

/-- C7: after a send failure that ends the only outstanding chain while the
queue is still non-empty, no queued payload is ever transmitted again by
later `send` calls: every later push sees a non-empty queue (so it returns
false and starts no new chain), nothing new reaches the wire, and the
payloads accumulate in the queue. -/
theorem C7_stuck_after_failure (s : Connection) (m : String) (ms : List String)
    (hp : s.pending = [m]) (hq : s.queue ≠ []) :
    (step s (Event.sendComplete false)).pending = [] ∧
    (step s (Event.sendComplete false)).queue = s.queue ∧
    (run (step s (Event.sendComplete false)) (ms.map Event.send)).wire = s.wire ∧
    (run (step s (Event.sendComplete false)) (ms.map Event.send)).queue = s.queue ++ ms ∧
    (run (step s (Event.sendComplete false)) (ms.map Event.send)).pending = [] ∧
    MessageQueue.empty ((run (step s (Event.sendComplete false)) (ms.map Event.send)).queue)
      = false := by
  have h1 : (step s (Event.sendComplete false)).pending = [] := by simp [step, hp]
  have h2 : (step s (Event.sendComplete false)).queue = s.queue := by simp [step, hp]
  have h3 : (step s (Event.sendComplete false)).wire = s.wire := by simp [step, hp]
  obtain ⟨w, q, p⟩ := run_sends_nonempty ms (step s (Event.sendComplete false))
    (by rw [h2]; exact hq)
  refine ⟨h1, h2, w.trans h3, ?_, p.trans h1, ?_⟩
  · rw [q, h2]
  · rw [q, h2]
    rcases hqe : s.queue with _ | ⟨a, l⟩
    · exact absurd hqe hq
    · simp [MessageQueue.empty]

/-- Witness for `C7_stuck_after_failure`: one chain outstanding, one payload
stuck in the queue, then the failure and two more driver sends. -/
theorem C7_stuck_after_failure_witness :
    ({ connInit with pending := ["takeoff"], queue := ["land"] } : Connection).pending
      = ["takeoff"] ∧
    ({ connInit with pending := ["takeoff"], queue := ["land"] } : Connection).queue ≠ [] ∧
    ((step { connInit with pending := ["takeoff"], queue := ["land"] }
        (Event.sendComplete false)).pending = [] ∧
      (step { connInit with pending := ["takeoff"], queue := ["land"] }
        (Event.sendComplete false)).queue
        = ({ connInit with pending := ["takeoff"], queue := ["land"] } : Connection).queue ∧
      (run (step { connInit with pending := ["takeoff"], queue := ["land"] }
          (Event.sendComplete false)) (["command", "command"].map Event.send)).wire
        = ({ connInit with pending := ["takeoff"], queue := ["land"] } : Connection).wire ∧
      (run (step { connInit with pending := ["takeoff"], queue := ["land"] }
          (Event.sendComplete false)) (["command", "command"].map Event.send)).queue
        = ({ connInit with pending := ["takeoff"], queue := ["land"] } : Connection).queue
            ++ ["command", "command"] ∧
      (run (step { connInit with pending := ["takeoff"], queue := ["land"] }
          (Event.sendComplete false)) (["command", "command"].map Event.send)).pending = [] ∧
      MessageQueue.empty ((run (step { connInit with pending := ["takeoff"], queue := ["land"] }
          (Event.sendComplete false)) (["command", "command"].map Event.send)).queue)
        = false) :=
  ⟨by decide, by decide,
    C7_stuck_after_failure { connInit with pending := ["takeoff"], queue := ["land"] }
      "takeoff" ["command", "command"] (by decide) (by decide)⟩

/-! ### Receive-path theorems -/

/-- On a successful receive completion the handler delivers exactly the
datagram — the first N bytes of the receive buffer, which the operating
system has just overwritten with the datagram contents — and re-arms the
receive. -/
theorem recv_success (s : Connection) (data : String) (src : Endpoint)
    (hl : s.listening = true) (hlen : data.length ≤ 1518) :
    step s (Event.recvComplete true data src)
      = { s with
          receive_buffer := data.toList ++ s.receive_buffer.drop data.length
          endpoint := src
          observed := s.observed ++ [data]
          listening := true } := by
  have hn : min data.length 1518 = data.length := min_eq_left hlen
  have hdl : data.toList.length = data.length := rfl
  have htake : data.toList.take data.length = data.toList := by
    rw [← hdl]
    simp
  have hkey : (data.toList ++ s.receive_buffer.drop data.length).take data.length
      = data.toList := List.take_left' hdl
  simp [step, hl, Connection.async_receive, hn, htake, hkey]
  rw [show List.take data.length data.data = data.data by rw [← hdl]; simp [String.toList]]

/-- C5: on a successful receive completion with a datagram of at most the
buffer size, exactly the first N bytes of the receive buffer — the datagram
just written into it — are delivered to the observer and a new receive is
armed unconditionally (the loop stays in the Listening state); on a failed
completion the error is reported, no new receive is armed, and the loop is
terminally stopped: no later event re-arms it or delivers another message. -/
theorem C5_receive_loop (s : Connection) (data : String) (src : Endpoint) (es : List Event)
    (hl : s.listening = true) (hlen : data.length ≤ 1518) :
    (step s (Event.recvComplete true data src)).observed = s.observed ++ [data] ∧
    (step s (Event.recvComplete true data src)).observed
      = s.observed ++ [String.mk ((step s (Event.recvComplete true data src)).receive_buffer.take data.length)] ∧
    (step s (Event.recvComplete true data src)).listening = true ∧
    (step s (Event.recvComplete false data src)).listening = false ∧
    (step s (Event.recvComplete false data src)).recvErrors = s.recvErrors + 1 ∧
    (step s (Event.recvComplete false data src)).observed = s.observed ∧
    (run (step s (Event.recvComplete false data src)) es).listening = false ∧
    (run (step s (Event.recvComplete false data src)) es).observed = s.observed := by
  have hs := recv_success s data src hl hlen
  have hdl : data.toList.length = data.length := rfl
  have hkey : (data.toList ++ s.receive_buffer.drop data.length).take data.length
      = data.toList := List.take_left' hdl
  have hfail : (step s (Event.recvComplete false data src)).listening = false ∧
      (step s (Event.recvComplete false data src)).recvErrors = s.recvErrors + 1 ∧
      (step s (Event.recvComplete false data src)).observed = s.observed := by
    refine ⟨?_, ?_, ?_⟩ <;> simp [step, hl]
  obtain ⟨hstop, hobs⟩ := run_stopped es (step s (Event.recvComplete false data src)) hfail.1
  refine ⟨?_, ?_, ?_, hfail.1, hfail.2.1, hfail.2.2, hstop, hobs.trans hfail.2.2⟩
  · rw [hs]
  · rw [hs]
    simp [hkey]
  · rw [hs]

/-- Witness for `C5_receive_loop`: a concrete datagram from a concrete
source at the initial connection, followed by one more driver event. -/
theorem C5_receive_loop_witness :
    connInit.listening = true ∧ ("ok" : String).length ≤ 1518 ∧
    ((step connInit (Event.recvComplete true "ok" (Endpoint.mk "10.0.0.5" 4000))).observed
        = connInit.observed ++ ["ok"] ∧
      (step connInit (Event.recvComplete true "ok" (Endpoint.mk "10.0.0.5" 4000))).observed
        = connInit.observed ++ [String.mk ((step connInit
            (Event.recvComplete true "ok" (Endpoint.mk "10.0.0.5" 4000))).receive_buffer.take
              ("ok" : String).length)] ∧
      (step connInit (Event.recvComplete true "ok" (Endpoint.mk "10.0.0.5" 4000))).listening
        = true ∧
      (step connInit (Event.recvComplete false "ok" (Endpoint.mk "10.0.0.5" 4000))).listening
        = false ∧
      (step connInit (Event.recvComplete false "ok" (Endpoint.mk "10.0.0.5" 4000))).recvErrors
        = connInit.recvErrors + 1 ∧
      (step connInit (Event.recvComplete false "ok" (Endpoint.mk "10.0.0.5" 4000))).observed
        = connInit.observed ∧
      (run (step connInit (Event.recvComplete false "ok" (Endpoint.mk "10.0.0.5" 4000)))
          [Event.send "command"]).listening = false ∧
      (run (step connInit (Event.recvComplete false "ok" (Endpoint.mk "10.0.0.5" 4000)))
          [Event.send "command"]).observed = connInit.observed) :=
  ⟨by decide, by decide,
    C5_receive_loop connInit "ok" (Endpoint.mk "10.0.0.5" 4000) [Event.send "command"]
      (by decide) (by decide)⟩
